import Mathlib

/-!
Verification of the front-matter extraction engine of `convert_bear_to_joplin.py`:
the hashtag scanner `extract_hashtags`, the color-code filter `is_tag`, and the
front-matter builder `extract_front_matter_info`, embedded shallowly in Lean.
Python strings are modelled through their character lists; Python `dict`s
(which preserve insertion order) are modelled as association lists.
-/

/-- Model of the ASCII whitespace characters stripped by Python `str.strip()`
with no arguments (the documents handled here are ASCII). -/
def isPySpace (c : Char) : Bool :=
  c == ' ' || c == '\t' || c == '\n' || c == '\r' || c == '\x0b' || c == '\x0c'

/-- Model of Python `line.rstrip('\r\n')`: remove every trailing `'\r'` or `'\n'`. -/
def pyRstripCRLF (s : String) : String :=
  String.mk ((s.data.reverse.dropWhile (fun c => c == '\r' || c == '\n')).reverse)

/-- Model of Python `line.lstrip('#')`: remove every leading `'#'`. -/
def pyLstripHash (s : String) : String :=
  String.mk (s.data.dropWhile (fun c => c == '#'))

/-- Model of Python `s.strip()`: remove leading and trailing whitespace. -/
def pyStrip (s : String) : String :=
  String.mk (((s.data.dropWhile isPySpace).reverse.dropWhile isPySpace).reverse)

/-- A character matched by the regex class `[0-9a-fA-F]`. -/
def isHexChar (c : Char) : Bool :=
  c.isDigit || ('a' ≤ c && c ≤ 'f') || ('A' ≤ c && c ≤ 'F')

/-- Model of the Python slice `line[a:b]` on a character list (indices clamp,
and `a ≥ b` yields the empty slice, as in Python for 0 ≤ a, b). -/
def pySlice (cs : List Char) (a b : Nat) : List Char :=
  (cs.take b).drop a

/-- Model of `re.match(r'^[0-9a-fA-F]{6}$', s)` being a match: in Python `$`
also matches just before one trailing `'\n'`, so `s` matches when it is exactly
six hex characters, or six hex characters followed by one `'\n'`. -/
def colorMatch (s : String) : Bool :=
  (s.data.length == 6 && s.data.all isHexChar) ||
  (s.data.length == 7 && (s.data.take 6).all isHexChar && s.data.getLast? == some '\n')

/-- `BearToJoplinConverter.is_tag`: a scanned hash is a real tag unless it
matches the 6-hex-digit color regex `self.color_re`. -/
def is_tag (hash : String) : Bool :=
  !colorMatch hash

/-- The mutable scan state of the loop in `extract_hashtags`: collected tags,
`start`/`end` slice offsets (Python `end` is called `stop` here, `end` being a
Lean keyword), the `in_hash` flag and the `multi_words` flag. -/
structure ScanSt where
  tags : List (List Char)
  start : Nat
  stop : Nat
  in_hash : Bool
  multi_words : Bool
deriving Repr, DecidableEq

/-- The `for i, curr in enumerate(line)` loop of `extract_hashtags`, processing
the remaining characters; `line` is the full character list (for slicing),
`i` the index of the first remaining character and `prev` the previous
character (`none` before the first iteration, like Python's `None`). -/
def hashLoop (line : List Char) : List Char → Nat → Option Char → ScanSt → ScanSt
  | [], _, _, st => st
  | curr :: rest, i, prev, st =>
    let peek : Option Char := rest.head?
    let st' : ScanSt :=
      if curr = '#' ∧ (prev = none ∨ prev = some ' ') ∧ ¬st.in_hash then
        -- When a starting hashtag is found, initialize the starting point index.
        { st with start := i + 1, in_hash := true, stop := i + 1 }
      else if curr = '#' ∧ prev ≠ some ' ' then
        -- End of a multi-words hash (previous character is not a space).
        { st with stop := i }
      else if curr = ' ' ∧ st.in_hash ∧ peek ≠ some '#' then
        -- Possible end of a multi-words hash; keep scanning.
        { st with stop := i, multi_words := true }
      else if curr = ' ' ∧ st.in_hash ∧ peek = some '#' then
        -- A space followed by a hash ends the current hash.
        { st with in_hash := false, multi_words := false,
                  tags := st.tags ++ [pySlice line st.start st.stop] }
      else if ¬st.multi_words then
        { st with stop := st.stop + 1 }
      else
        st
    hashLoop line rest (i + 1) (some curr) st'

/-- `extract_hashtags` up to (but not including) the final
`tags = list(filter(self.is_tag, tags))` line: the raw scanned tags. -/
def extract_hashtags_raw (line : String) : List String :=
  if line.data = [] ∨ ¬line.data.contains '#' then []
  else
    let cs := line.data
    let st := hashLoop cs cs 0 none ⟨[], 0, 0, false, false⟩
    let raw := if st.in_hash then st.tags ++ [pySlice cs st.start st.stop] else st.tags
    raw.map String.mk

/-- `BearToJoplinConverter.extract_hashtags`: raw scan, then removal of
non-tag hashes through `is_tag`. -/
def extract_hashtags (line : String) : List String :=
  (extract_hashtags_raw line).filter is_tag

/-- The filesystem timestamp information `get_creation_time` and
`os.path.getmtime` draw from, in epoch seconds (fractional parts of the
underlying float timestamps never reach the second-resolution format used
here, so seconds as `Nat` suffice). `birthtime` is `none` when `st_birthtime`
raises `AttributeError` (e.g. on Linux). -/
structure FileStat where
  isWindows : Bool
  ctime : Nat
  birthtime : Option Nat
  mtime : Nat
deriving Repr, DecidableEq

/-- `get_creation_time`: `os.path.getctime` on Windows, else `st_birthtime`
when available, else the `st_mtime` fallback. -/
def get_creation_time (st : FileStat) : Nat :=
  if st.isWindows then st.ctime
  else match st.birthtime with
    | some t => t
    | none => st.mtime

/-- Civil date (year, month, day) of a day count since 1970-01-01, modelling
the proleptic-Gregorian conversion performed by Python's
`datetime.fromtimestamp(·, timezone.utc)` (standard era-based algorithm). -/
def civilFromDays (days : Nat) : Nat × Nat × Nat :=
  let z := days + 719468
  let era := z / 146097
  let doe := z % 146097
  let yoe := (doe - doe / 1460 + doe / 36524 - doe / 146096) / 365
  let y := yoe + era * 400
  let doy := doe - (365 * yoe + yoe / 4 - yoe / 100)
  let mp := (5 * doy + 2) / 153
  let d := doy - (153 * mp + 2) / 5 + 1
  let m := if mp < 10 then mp + 3 else mp - 9
  (if m ≤ 2 then y + 1 else y, m, d)

/-- Two-digit zero-padded decimal rendering (`%m`, `%d`, `%H`, `%M`, `%S`;
exact for values below 100, which these fields always are). -/
def pad2 (n : Nat) : String :=
  String.mk [Nat.digitChar (n / 10 % 10), Nat.digitChar (n % 10)]

/-- Four-digit zero-padded decimal rendering (`%Y`; exact for years up to
9999, and `datetime.fromtimestamp` raises beyond year 9999). -/
def pad4 (n : Nat) : String :=
  String.mk [Nat.digitChar (n / 1000 % 10), Nat.digitChar (n / 100 % 10),
             Nat.digitChar (n / 10 % 10), Nat.digitChar (n % 10)]

/-- Model of `f'{datetime.fromtimestamp(t, timezone.utc):%Y-%m-%d %H:%M:%SZ}'`
for an epoch timestamp `t` (faithful on the domain where `fromtimestamp`
does not raise, i.e. years up to 9999). -/
def formatTimestamp (t : Nat) : String :=
  let c := civilFromDays (t / 86400)
  let secs := t % 86400
  pad4 c.1 ++ "-" ++ pad2 c.2.1 ++ "-" ++ pad2 c.2.2 ++ " " ++
    pad2 (secs / 3600) ++ ":" ++ pad2 (secs / 60 % 60) ++ ":" ++ pad2 (secs % 60) ++ "Z"

/-- Checks that a string has the shape `YYYY-MM-DD HH:MM:SSZ`: twenty
characters, digits in the date/time positions, with `-`, space, `:` and a
final `Z` as separators. -/
def isTsFormat (s : String) : Bool :=
  match s.data with
  | [y1, y2, y3, y4, '-', m1, m2, '-', d1, d2, ' ',
     h1, h2, ':', n1, n2, ':', s1, s2, 'Z'] =>
    [y1, y2, y3, y4, m1, m2, d1, d2, h1, h2, n1, n2, s1, s2].all Char.isDigit
  | _ => false

/-- The line-reading loop of `extract_front_matter_info`: threads the pair
`(title, prev_line)` (both starting as `None`) over the document's lines,
each line first stripped of its trailing `'\r'`/`'\n'`; blank lines are
skipped, the first non-blank line sets `title` and every non-blank line
replaces `prev_line`. -/
def scanDoc : List String → Option String × Option String → Option String × Option String
  | [], tp => tp
  | l :: ls, (title, prevLine) =>
    let l' := pyRstripCRLF l
    if l' = "" then
      scanDoc ls (title, prevLine)
    else
      scanDoc ls
        ((if prevLine = none then some (pyStrip (pyLstripHash l')) else title), some l')

/-- The `title` variable after the reading loop of `extract_front_matter_info`. -/
def titleField (lines : List String) : Option String :=
  (scanDoc lines (none, none)).1

/-- The `tags` variable of `extract_front_matter_info`:
`self.extract_hashtags(prev_line)`, where a `prev_line` of `None` falls into
the scanner's falsy guard and yields no tags. -/
def tagsField (lines : List String) : List String :=
  match (scanDoc lines (none, none)).2 with
  | none => []
  | some l => extract_hashtags l

/-- A YAML front-matter value: a string scalar or a sequence of strings. -/
inductive FMVal where
  | str : String → FMVal
  | list : List String → FMVal
deriving Repr, DecidableEq

/-- `BearToJoplinConverter.extract_front_matter_info`, with the document given
as its list of lines and the filesystem timestamps as a `FileStat`: builds the
front-matter `dict` (modelled as an association list in insertion order) with
`title` first when truthy, then `created` and `updated`, then `tags` when
non-empty. -/
def extract_front_matter_info (lines : List String) (st : FileStat) : List (String × FMVal) :=
  let title := titleField lines
  let tags := tagsField lines
  (match title with
   | some t => if t = "" then [] else [("title", FMVal.str t)]
   | none => ([] : List (String × FMVal))) ++
  [("created", FMVal.str (formatTimestamp (get_creation_time st))),
   ("updated", FMVal.str (formatTimestamp st.mtime))] ++
  (if tags = [] then [] else [("tags", FMVal.list tags)])

/-- Modelled from the spec: the serialization step (`yaml.dump` with
`sort_keys=False`, whose implementation is outside this repository) renders
the mapping's keys in insertion order, not alphabetized; this models the key
order it emits. -/
def yamlDumpKeys (fm : List (String × FMVal)) : List String :=
  fm.map Prod.fst

/-- Python truthiness of an optional string (`None` and `''` are falsy). -/
def pyTruthyStr : Option String → Bool
  | none => false
  | some t => !(t == "")

/-- The document's first non-blank line (after trailing-CRLF stripping),
written directly from the spec's words for comparison with the loop. -/
def firstNE : List String → Option String
  | [] => none
  | l :: ls =>
    let l' := pyRstripCRLF l
    if l' = "" then firstNE ls else some l'

/-- The document's last non-blank line (after trailing-CRLF stripping),
written directly from the spec's words for comparison with the loop. -/
def lastNE : List String → Option String
  | [] => none
  | l :: ls =>
    let l' := pyRstripCRLF l
    match lastNE ls with
    | some x => some x
    | none => if l' = "" then none else some l'

/-- The title computed from a (already CRLF-stripped) line:
`line.lstrip('#').strip()`. -/
def titleOf (l : String) : String :=
  pyStrip (pyLstripHash l)

/-! ### Helper lemmas -/

/-- The reading loop computes: the title comes from the first non-blank line
(when the loop started with no previous line), and the final `prev_line` is
the last non-blank line. -/
lemma scanDoc_eq (ls : List String) : ∀ t p : Option String,
    scanDoc ls (t, p) =
      ((match p, firstNE ls with
        | some _, _ => t
        | none, some l => some (titleOf l)
        | none, none => t),
       (match lastNE ls with
        | some l => some l
        | none => p)) := by
  induction ls with
  | nil =>
    intro t p
    cases p <;> simp [scanDoc, firstNE, lastNE]
  | cons a as ih =>
    intro t p
    by_cases h : pyRstripCRLF a = ""
    · have e3 : scanDoc (a :: as) (t, p) = scanDoc as (t, p) := by
        simp [scanDoc, h]
      have e1 : firstNE (a :: as) = firstNE as := by simp [firstNE, h]
      have e2 : lastNE (a :: as) = lastNE as := by
        cases hl : lastNE as <;> simp [lastNE, h, hl]
      rw [e3, e1, e2, ih]
    · have e3 : scanDoc (a :: as) (t, p) =
          scanDoc as
            ((if p = none then some (titleOf (pyRstripCRLF a)) else t),
             some (pyRstripCRLF a)) := by
        simp [scanDoc, h, titleOf]
      have e1 : firstNE (a :: as) = some (pyRstripCRLF a) := by simp [firstNE, h]
      rw [e3, ih, e1]
      cases p <;> cases hl : lastNE as <;> simp [lastNE, h, hl]

/-- The `title` variable equals the stripped first non-blank line. -/
lemma titleField_eq (d : List String) : titleField d = (firstNE d).map titleOf := by
  unfold titleField
  rw [scanDoc_eq]
  cases firstNE d <;> cases lastNE d <;> simp

/-- The final `prev_line` equals the last non-blank line. -/
lemma prevLine_eq (d : List String) : (scanDoc d (none, none)).2 = lastNE d := by
  rw [scanDoc_eq]
  cases lastNE d <;> simp

/-- The `tags` variable equals the scan of the last non-blank line. -/
lemma tagsField_eq (d : List String) :
    tagsField d =
      match lastNE d with
      | none => []
      | some l => extract_hashtags l := by
  unfold tagsField
  rw [prevLine_eq]

/-- A document whose lines are all blank has no first non-blank line. -/
lemma firstNE_blank (d : List String) (h : ∀ l ∈ d, pyRstripCRLF l = "") :
    firstNE d = none := by
  induction d with
  | nil => rfl
  | cons a as ih =>
    have ha : pyRstripCRLF a = "" := h a (by simp)
    simp only [firstNE, ha, if_pos]
    exact ih fun x hx => h x (by simp [hx])

/-- A document whose lines are all blank has no last non-blank line. -/
lemma lastNE_blank (d : List String) (h : ∀ l ∈ d, pyRstripCRLF l = "") :
    lastNE d = none := by
  induction d with
  | nil => rfl
  | cons a as ih =>
    have ha : pyRstripCRLF a = "" := h a (by simp)
    have hr : lastNE as = none := ih fun x hx => h x (by simp [hx])
    simp [lastNE, ha, hr]

/-- The first non-blank line is the head of the blank-filtered stripped lines. -/
lemma firstNE_singleton (d : List String) (l : String)
    (h : (d.map pyRstripCRLF).filter (fun s => s != "") = [l]) :
    firstNE d = some l := by
  induction d with
  | nil => simp at h
  | cons a as ih =>
    simp only [List.map_cons, List.filter_cons] at h
    by_cases ha : pyRstripCRLF a = ""
    · rw [ha] at h
      simp only [bne_self_eq_false, Bool.false_eq_true, if_false] at h
      simp only [firstNE, ha, if_pos]
      exact ih h
    · have hb : (pyRstripCRLF a != "") = true := by simp [ha]
      rw [hb] at h
      simp only [if_true] at h
      obtain ⟨h1, h2⟩ := List.cons.inj h
      have hl : ¬l = "" := h1 ▸ ha
      simp [firstNE, ha, h1, hl]

/-- A document whose blank-filtered lines are empty is all blank. -/
lemma all_blank_of_filter_nil (d : List String)
    (h : (d.map pyRstripCRLF).filter (fun s => s != "") = []) :
    ∀ l ∈ d, pyRstripCRLF l = "" := by
  intro l hl
  have hm : pyRstripCRLF l ∈ d.map pyRstripCRLF := List.mem_map_of_mem _ hl
  by_contra hne
  have : pyRstripCRLF l ∈ (d.map pyRstripCRLF).filter (fun s => s != "") :=
    List.mem_filter.mpr ⟨hm, by simp [hne]⟩
  rw [h] at this
  simp at this

/-- The last non-blank line of a document with exactly one non-blank line. -/
lemma lastNE_singleton (d : List String) (l : String)
    (h : (d.map pyRstripCRLF).filter (fun s => s != "") = [l]) :
    lastNE d = some l := by
  induction d with
  | nil => simp at h
  | cons a as ih =>
    simp only [List.map_cons, List.filter_cons] at h
    by_cases ha : pyRstripCRLF a = ""
    · rw [ha] at h
      simp only [bne_self_eq_false, Bool.false_eq_true, if_false] at h
      have := ih h
      simp [lastNE, this]
    · have hb : (pyRstripCRLF a != "") = true := by simp [ha]
      rw [hb] at h
      simp only [if_true] at h
      obtain ⟨h1, h2⟩ := List.cons.inj h
      have hn : lastNE as = none := lastNE_blank as (all_blank_of_filter_nil as h2)
      have hl : ¬l = "" := h1 ▸ ha
      simp [lastNE, hn, ha, h1, hl]

/-- A decimal digit character rendered from any value reduced mod 10 is a digit. -/
lemma digitChar_mod_isDigit (x : Nat) : (Nat.digitChar (x % 10)).isDigit = true := by
  have h : x % 10 < 10 := Nat.mod_lt x (by decide)
  exact (by decide : ∀ k, k < 10 → (Nat.digitChar k).isDigit = true) (x % 10) h

/-- The character list of a formatted timestamp, spelled out. -/
lemma formatTimestamp_data (t : Nat) :
    (formatTimestamp t).data =
      [Nat.digitChar ((civilFromDays (t / 86400)).1 / 1000 % 10),
       Nat.digitChar ((civilFromDays (t / 86400)).1 / 100 % 10),
       Nat.digitChar ((civilFromDays (t / 86400)).1 / 10 % 10),
       Nat.digitChar ((civilFromDays (t / 86400)).1 % 10), '-',
       Nat.digitChar ((civilFromDays (t / 86400)).2.1 / 10 % 10),
       Nat.digitChar ((civilFromDays (t / 86400)).2.1 % 10), '-',
       Nat.digitChar ((civilFromDays (t / 86400)).2.2 / 10 % 10),
       Nat.digitChar ((civilFromDays (t / 86400)).2.2 % 10), ' ',
       Nat.digitChar (t % 86400 / 3600 / 10 % 10),
       Nat.digitChar (t % 86400 / 3600 % 10), ':',
       Nat.digitChar (t % 86400 / 60 % 60 / 10 % 10),
       Nat.digitChar (t % 86400 / 60 % 60 % 10), ':',
       Nat.digitChar (t % 86400 % 60 / 10 % 10),
       Nat.digitChar (t % 86400 % 60 % 10), 'Z'] := rfl

/-- Every formatted timestamp has the `YYYY-MM-DD HH:MM:SSZ` shape. -/
lemma isTsFormat_formatTimestamp (t : Nat) : isTsFormat (formatTimestamp t) = true := by
  unfold isTsFormat
  rw [formatTimestamp_data]
  simp [List.all_cons, digitChar_mod_isDigit]

/-- Helper: an element returned by `getLast?` is a member of the list. -/
lemma mem_of_getLastQ {α : Type} (l : List α) (a : α) (h : l.getLast? = some a) :
    a ∈ l := by
  induction l with
  | nil => simp [List.getLast?] at h
  | cons x xs ih =>
    cases xs with
    | nil =>
      simp [List.getLast?] at h
      simp [h]
    | cons y ys =>
      rw [List.getLast?_cons_cons] at h
      exact List.mem_cons_of_mem x (ih h)

/-- Helper: the value of `List.lookup "title"` on the built record. -/
lemma lookup_title_eq (d : List String) (st : FileStat) :
    (extract_front_matter_info d st).lookup "title" =
      match titleField d with
      | some t => if t = "" then none else some (FMVal.str t)
      | none => none := by
  unfold extract_front_matter_info
  cases ht : titleField d with
  | none =>
    by_cases hg : tagsField d = [] <;>
      simp [ht, hg, List.lookup]
  | some t =>
    by_cases he : t = "" <;> by_cases hg : tagsField d = [] <;>
      simp [ht, he, hg, List.lookup]

/-! ### Claim theorems -/

/-- Claim C1, counterexample: on the line `"#to do list #b"` the scanner does
NOT return `["to do list", "b"]` as the claim states. -/
theorem c1_counterexample :
    extract_hashtags ("#to do list #b") ≠ ["to do list", "b"] := by decide

/-- Claim C1, amended: on the line `"#to do list #b"` the scanner returns
`["to do", "b"]`. The closing space-before-`#` at index 11 emits the candidate
using the provisional end offset recorded at the last earlier space not
followed by `#` (index 6, after `"to do"`); characters scanned after that
provisional offset while `multi_words` is set do not advance it, so the final
word `"list"` is dropped from the emitted tag. -/
theorem c1_multiword_truncation :
    extract_hashtags ("#to do list #b") = ["to do", "b"] := by decide

/-- Claim C2, counterexample: the line `"#"` ends in a lone `#` with no
following text, yet the scanner's output contains the empty string, an
element derived from that dangling marker. -/
theorem c2_counterexample : "" ∈ extract_hashtags ("#") := by decide

/-- Claim C2, amended: a trailing lone `#` that starts a candidate (at the
start of the line or after a space) DOES contribute a tag, namely the empty
string, which also survives the 6-hex-digit filter: both `"#"` and `"text #"`
scan to `[""]`. Only a trailing `#` glued to preceding non-space text (as in
`"text#"`), which never enters a candidate, contributes nothing. -/
theorem c2_dangling_hash :
    extract_hashtags ("#") = [""] ∧
    extract_hashtags ("text #") = [""] ∧
    extract_hashtags ("text#") = [] := by
  exact ⟨by decide, by decide, by decide⟩

/-- Claim C3: a scanned tag (a string without `'\n'`, which no line-derived
tag contains) is removed by the filter iff it is exactly six characters, all
hexadecimal digits; concretely `"#aabbcc"` scans raw to `["aabbcc"]` but is
excluded after filtering, while `"#aabbcz"` survives. -/
theorem c3_color_filter :
    (∀ t : String, '\n' ∉ t.data →
      (is_tag t = false ↔ t.data.length = 6 ∧ ∀ c ∈ t.data, isHexChar c = true)) ∧
    extract_hashtags_raw ("#aabbcc") = ["aabbcc"] ∧
    extract_hashtags ("#aabbcc") = [] ∧
    extract_hashtags ("#aabbcz") = ["aabbcz"] := by
  refine ⟨?_, by decide, by decide, by decide⟩
  intro t hn
  rw [is_tag, colorMatch]
  simp only [Bool.not_eq_false', Bool.or_eq_true, Bool.and_eq_true, beq_iff_eq,
    List.all_eq_true]
  constructor
  · intro hor
    rcases hor with h | h
    · exact ⟨h.1, h.2⟩
    · exact absurd (mem_of_getLastQ t.data '\n' h.2) hn
  · intro h
    exact Or.inl ⟨h.1, h.2⟩

/-- Claim C3, witness: the raw scanned tag `"aabbcc"` is filtered out while
`"aabbcz"` is kept. -/
theorem c3_witness : is_tag ("aabbcc") = false ∧ is_tag ("aabbcz") = true := by
  constructor
  · exact (c3_color_filter.1 ("aabbcc") (by decide)).mpr (by decide)
  · cases hb : is_tag ("aabbcz") with
    | true => rfl
    | false => exact absurd ((c3_color_filter.1 ("aabbcz") (by decide)).mp hb) (by decide)

/-- Claim C4: the record's `title`, when present, is the first non-blank line
with leading `#` characters and surrounding whitespace stripped (it is present
exactly when that stripped text is non-empty), and a document with no
non-blank line has no `title` key at all. -/
theorem c4_title_rule (d : List String) (st : FileStat) :
    (firstNE d = none → (extract_front_matter_info d st).lookup "title" = none) ∧
    (∀ l, firstNE d = some l →
      (extract_front_matter_info d st).lookup "title" =
        if titleOf l = "" then none else some (FMVal.str (titleOf l))) := by
  constructor
  · intro h
    rw [lookup_title_eq, titleField_eq, h]
    rfl
  · intro l h
    rw [lookup_title_eq, titleField_eq, h]
    rfl

/-- Claim C4, witness: a document whose first non-blank line is
`"# My Title"` yields the title `"My Title"`. -/
theorem c4_witness :
    (extract_front_matter_info ["# My Title"] ⟨false, 0, none, 0⟩).lookup "title" =
      some (FMVal.str ("My Title")) := by
  rw [(c4_title_rule ["# My Title"] ⟨false, 0, none, 0⟩).2 ("# My Title") (by decide)]
  decide

/-- Claim C5: a document with zero non-blank lines yields exactly the record
with `created` and `updated` (no `title` key, no `tags` key), both holding
timestamps of shape `YYYY-MM-DD HH:MM:SSZ` (the bounds keep the epoch values
inside the domain where Python `datetime.fromtimestamp` is defined). -/
theorem c5_empty_document (d : List String) (st : FileStat)
    (h : ∀ l ∈ d, pyRstripCRLF l = "")
    (hc : get_creation_time st < 253402300800) (hm : st.mtime < 253402300800) :
    extract_front_matter_info d st =
      [("created", FMVal.str (formatTimestamp (get_creation_time st))),
       ("updated", FMVal.str (formatTimestamp st.mtime))] ∧
    isTsFormat (formatTimestamp (get_creation_time st)) = true ∧
    isTsFormat (formatTimestamp st.mtime) = true := by
  have h1 : titleField d = none := by
    rw [titleField_eq, firstNE_blank d h]
    rfl
  have h2 : tagsField d = [] := by
    rw [tagsField_eq, lastNE_blank d h]
  refine ⟨?_, isTsFormat_formatTimestamp _, isTsFormat_formatTimestamp _⟩
  unfold extract_front_matter_info
  rw [h1, h2]
  rfl

/-- Claim C5, witness: the all-blank document `[""]` with concrete timestamps. -/
theorem c5_witness :
    extract_front_matter_info [""] ⟨false, 0, none, 1700000000⟩ =
      [("created", FMVal.str ("2023-11-14 22:13:20Z")),
       ("updated", FMVal.str ("2023-11-14 22:13:20Z"))] ∧
    isTsFormat ("2023-11-14 22:13:20Z") = true := by
  have h := c5_empty_document [""] ⟨false, 0, none, 1700000000⟩
    (by decide) (by decide) (by decide)
  refine ⟨h.1.trans (by decide), ?_⟩
  have := h.2.2
  rw [show formatTimestamp 1700000000 = ("2023-11-14 22:13:20Z") from by decide] at this
  exact this

/-- Claim C6: the record's keys appear exactly in the order `title`,
`created`, `updated`, `tags` restricted to the keys present, and the
serializer (modelled as emitting keys in insertion order, per
`yaml.dump(..., sort_keys=False)`) preserves that order. -/
theorem c6_key_order (d : List String) (st : FileStat) :
    yamlDumpKeys (extract_front_matter_info d st) =
      (if pyTruthyStr (titleField d) then ["title"] else []) ++ ["created", "updated"] ++
      (if tagsField d = [] then [] else ["tags"]) ∧
    yamlDumpKeys (extract_front_matter_info d st) =
      (extract_front_matter_info d st).map Prod.fst := by
  refine ⟨?_, rfl⟩
  unfold yamlDumpKeys extract_front_matter_info
  cases ht : titleField d with
  | none => by_cases hg : tagsField d = [] <;> simp [pyTruthyStr, hg]
  | some t => by_cases he : t = "" <;> by_cases hg : tagsField d = [] <;>
      simp [pyTruthyStr, he, hg]

/-- Claim C7: a line that is empty or contains no `#` scans to no tags. -/
theorem c7_no_hash_empty (l : String)
    (h : l.data = [] ∨ l.data.contains '#' = false) :
    extract_hashtags l = [] := by
  have hc : l.data = [] ∨ ¬l.data.contains '#' = true := by
    rcases h with h | h
    · exact Or.inl h
    · exact Or.inr (by rw [h]; exact Bool.false_ne_true)
  unfold extract_hashtags extract_hashtags_raw
  rw [if_pos hc]
  rfl

/-- Claim C7, witness: a hash-free line yields no tags. -/
theorem c7_witness : extract_hashtags ("hello world") = [] :=
  c7_no_hash_empty ("hello world") (Or.inr (by decide))

/-- Claim C8: the scanner maps `"#todo"` to `["todo"]` and `"#a #b"` to
`["a", "b"]`: two consecutive tags separated by one space both close. -/
theorem c8_basic_scans :
    extract_hashtags ("#todo") = ["todo"] ∧
    extract_hashtags ("#a #b") = ["a", "b"] := by
  exact ⟨by decide, by decide⟩

/-- Claim C9: the builder is deterministic: equal document contents and equal
filesystem timestamps give identical records (same keys, values and order). -/
theorem c9_deterministic (d1 d2 : List String) (s1 s2 : FileStat)
    (hd : d1 = d2) (hs : s1 = s2) :
    extract_front_matter_info d1 s1 = extract_front_matter_info d2 s2 := by
  rw [hd, hs]

/-- Claim C9, witness: two runs on the same concrete input agree. -/
theorem c9_witness :
    extract_front_matter_info ["#tag"] ⟨false, 0, none, 0⟩ =
      extract_front_matter_info ["#tag"] ⟨false, 0, none, 0⟩ :=
  c9_deterministic ["#tag"] ["#tag"] ⟨false, 0, none, 0⟩ ⟨false, 0, none, 0⟩ rfl rfl

/-- Claim C10: in a document with exactly one non-blank line, that line is
both the title source and the tag source: the record's title is the line
stripped and its tags are the line's scanned hashtags (each field omitted
when its value is empty). -/
theorem c10_single_line (d : List String) (st : FileStat) (l : String)
    (h : (d.map pyRstripCRLF).filter (fun s => s != "") = [l]) :
    extract_front_matter_info d st =
      (if titleOf l = "" then [] else [("title", FMVal.str (titleOf l))]) ++
      [("created", FMVal.str (formatTimestamp (get_creation_time st))),
       ("updated", FMVal.str (formatTimestamp st.mtime))] ++
      (if extract_hashtags l = [] then [] else [("tags", FMVal.list (extract_hashtags l))]) := by
  have h1 : titleField d = some (titleOf l) := by
    rw [titleField_eq, firstNE_singleton d l h]
    rfl
  have h2 : tagsField d = extract_hashtags l := by
    rw [tagsField_eq, lastNE_singleton d l h]
  unfold extract_front_matter_info
  rw [h1, h2]

/-- Claim C10, witness: the one-line document `["#tag"]` yields both
`title == "tag"` and `tags == ["tag"]`. -/
theorem c10_witness :
    extract_front_matter_info ["#tag"] ⟨false, 0, none, 0⟩ =
      [("title", FMVal.str ("tag")),
       ("created", FMVal.str ("1970-01-01 00:00:00Z")),
       ("updated", FMVal.str ("1970-01-01 00:00:00Z")),
       ("tags", FMVal.list ["tag"])] := by
  rw [c10_single_line ["#tag"] ⟨false, 0, none, 0⟩ ("#tag") (by decide)]
  decide
